import Mathlib

/-!
Shallow embedding of the Pretzyl interpreter (src/pretzyl.py), a small
Forth-like stack based interpreter written in Python 2.

Modelling conventions:
* Python lists that serve as stacks grow at the end (`stacks[-1]` is the
  active stack and the end of a stack is its top).  In this embedding the
  HEAD of a Lean list is the top of the stack, and the HEAD of the list of
  stacks is the active stack.  Values that the source code reads off in
  bottom-to-top order are therefore obtained by `take` and `reverse`.
* Python exceptions are modelled by an explicit error component: a mutating
  operation returns the state as mutated so far together with an optional
  error (mutations performed before an exception is raised persist, exactly
  as in Python).
* Machine integers are `Int` (Python 2 integers are arbitrary precision, so
  no modular reduction is needed).  Python floats are modelled by exact
  decimal rationals plus infinity and nan markers; IEEE rounding of the
  decimal literal to a double is not modelled (no theorem below depends on
  the numeric value of a float).
* The module `tokenyze` (whitespace splitting of the program text) is not
  part of the repository sources; programs are therefore represented as the
  list of raw token strings, to which `convert` is applied, or directly as
  lists of converted token values.
-/

/-- Error kinds of the interpreter, mirroring the exception classes of
src/pretzyl.py, plus the Python built-in exceptions that the code can raise
(assertion failure in `times`, calling `None` as `lastop`, indexing an empty
list, the interpreter recursion limit, and type errors). -/
inductive PErr
  | recursionOverflow
  | nestingException
  | stackUnderflow
  | stackOverflow
  | iterationOverflow
  | invalidReference
  | pyAssertionError
  | pyTypeError
  | pyIndexError
  | pyRecursionError
  deriving DecidableEq, Repr

/-- The operator objects that this development embeds from the default
operator set (DefaultOperators in src/pretzyl.py): `add`, the short-circuit
`and_` and `or_`, and the two modifiers `squash` and `times`. -/
inductive OpCode
  | add
  | andB
  | orB
  | squash
  | times
  deriving DecidableEq, Repr

/-- Python float values: exact decimal value of the literal, infinity, nan. -/
inductive PFloat
  | finite (q : ℚ)
  | inf (neg : Bool)
  | nan
  deriving DecidableEq, Repr

/-- Runtime values of the interpreter.  `vref` is the `Reference` class of
the source; `vlist` is a Python list (produced for instance when `popstack`
folds a multi-entry stack into a compound value, in bottom-to-top order);
`vop` is an operator object stored in the environment. -/
inductive Value
  | vnone
  | vbool (b : Bool)
  | vint (n : Int)
  | vfloat (x : PFloat)
  | vstr (s : String)
  | vref (name : String)
  | vlist (vs : List Value)
  | vop (o : OpCode)

/-! ## Token conversion (`convert` in src/pretzyl.py) -/

/-- Digits characters making up a hexadecimal literal: `[\da-fA-F]`. -/
def isHexDigitPy (c : Char) : Bool :=
  c.isDigit || ('a' ≤ c && c ≤ 'f') || ('A' ≤ c && c ≤ 'F')

/-- Numeric value of a digit character in a base up to 16. -/
def hexVal (c : Char) : Nat :=
  if c.isDigit then c.toNat - '0'.toNat
  else if 'a' ≤ c && c ≤ 'f' then c.toNat - 'a'.toNat + 10
  else c.toNat - 'A'.toNat + 10

/-- Value of a digit string in the given base. -/
def natOfDigits (base : Nat) (ds : List Char) : Nat :=
  ds.foldl (fun acc c => acc * base + hexVal c) 0

/-- Body of the octal regex after the optional sign: `0\d+`. -/
def octalBody : List Char → Bool
  | '0' :: ds => !ds.isEmpty && ds.all Char.isDigit
  | _ => false

/-- The regex `^-?0\d+$` of the octal branch of `convert`. -/
def matchOctal (s : List Char) : Bool :=
  match s with
  | '-' :: rest => octalBody rest
  | rest => octalBody rest

/-- Body of the hex regex after the optional sign: `0[xX][\da-fA-F]+`. -/
def hexBody : List Char → Bool
  | '0' :: x :: ds => (x = 'x' || x = 'X') && !ds.isEmpty && ds.all isHexDigitPy
  | _ => false

/-- The regex `^-?0[xX][\da-fA-F]+$` of the hex branch of `convert`. -/
def matchHex (s : List Char) : Bool :=
  match s with
  | '-' :: rest => hexBody rest
  | rest => hexBody rest

/-- The regex `^-?\d+$` of the decimal branch of `convert`. -/
def matchDec (s : List Char) : Bool :=
  match s with
  | '-' :: rest => !rest.isEmpty && rest.all Char.isDigit
  | rest => !rest.isEmpty && rest.all Char.isDigit

/-- Python `int(s, 8)` restricted to the unsigned strings this code path can
produce (`token[1:]` of a token matching the octal regex): succeeds exactly
when the string is nonempty and all digits are octal, otherwise raises
ValueError (`none`). -/
def pyIntBase8 (s : List Char) : Option Int :=
  if !s.isEmpty && s.all (fun c => '0' ≤ c && c ≤ '7') then
    some (natOfDigits 8 s)
  else none

/-- Python `int(s, 16)` restricted to the strings this code path can produce
(`token[2:]` of a token matching the hex regex; for a negative token this
string starts with the letter x and always raises ValueError). -/
def pyIntBase16 (s : List Char) : Option Int :=
  if !s.isEmpty && s.all isHexDigitPy then
    some (natOfDigits 16 s)
  else none

/-- Python `int(s)` on a string matching `^-?\d+$`. -/
def pyIntDec (s : List Char) : Int :=
  match s with
  | '-' :: rest => -(natOfDigits 10 rest : Int)
  | rest => (natOfDigits 10 rest : Int)

/-- Strips an optional leading sign; returns (isNegative, rest). -/
def stripSign : List Char → Bool × List Char
  | '+' :: rest => (false, rest)
  | '-' :: rest => (true, rest)
  | rest => (false, rest)

/-- Splits at the first exponent marker e or E. -/
def splitExp : List Char → List Char × Option (List Char)
  | [] => ([], none)
  | c :: rest =>
    if c = 'e' ∨ c = 'E' then ([], some rest)
    else
      let (m, e) := splitExp rest
      (c :: m, e)

/-- Splits at the first decimal point. -/
def splitDot : List Char → List Char × Option (List Char)
  | [] => ([], none)
  | c :: rest =>
    if c = '.' then ([], some rest)
    else
      let (m, e) := splitDot rest
      (c :: m, e)

/-- Parses the mantissa of a float literal: digits with an optional decimal
point, at least one digit in total.  Returns the digit value together with
the number of fractional digits. -/
def parseMantissa (m : List Char) : Option (Nat × Nat) :=
  let (ip, fp) := splitDot m
  match fp with
  | none =>
    if !ip.isEmpty && ip.all Char.isDigit then some (natOfDigits 10 ip, 0)
    else none
  | some f =>
    if (ip.all Char.isDigit && f.all Char.isDigit) && !(ip.isEmpty && f.isEmpty) then
      some (natOfDigits 10 (ip ++ f), f.length)
    else none

/-- Parses the exponent part of a float literal: optional sign and digits. -/
def parseExpPart (e : List Char) : Option Int :=
  let (neg, d) := stripSign e
  if !d.isEmpty && d.all Char.isDigit then
    some (if neg then -(natOfDigits 10 d : Int) else (natOfDigits 10 d : Int))
  else none

/-- Assembles the exact rational value of a decimal float literal. -/
def mkQ (neg : Bool) (v fl : Nat) (e : Int) : ℚ :=
  let q : ℚ := (v : ℚ) / ((10 : ℚ) ^ fl) * ((10 : ℚ) ^ e)
  if neg then -q else q

/-- Python `float(s)` for whitespace-free tokens: an optionally signed
decimal literal with optional fraction and exponent, or the case-insensitive
words inf, infinity and nan.  Returns `none` on ValueError. -/
def pyParseFloat (s : List Char) : Option PFloat :=
  let (neg, body) := stripSign s
  let lb := body.map Char.toLower
  if lb = ['i', 'n', 'f'] ∨ lb = ['i', 'n', 'f', 'i', 'n', 'i', 't', 'y'] then
    some (.inf neg)
  else if lb = ['n', 'a', 'n'] then some .nan
  else
    let (m, e) := splitExp body
    match parseMantissa m, e with
    | some (v, fl), none => some (.finite (mkQ neg v fl 0))
    | some (v, fl), some ep => (parseExpPart ep).map (fun ev => .finite (mkQ neg v fl ev))
    | none, _ => none

/-- The quote characters of the source (single and double quote). -/
def isQuoteChar (c : Char) : Bool :=
  c = '"' || c = Char.ofNat 39

/-- The `convert` function of src/pretzyl.py.  It takes a string token and
converts it into a literal or reference:
* `"None"` is the None literal;
* tokens in BOOLEANS, that is `"True"` and `"False"`, become `bool(token)`,
  the truthiness of the (always non-empty) token string;
* the numeric branches in order: octal regex then `int(token[1:], 8)`, hex
  regex then `int(token[2:], 16)`, decimal regex then `int(token)`, else
  `float(token)`; a ValueError skips the whole numeric block;
* a token of length at least 2 with matching quote characters at both ends
  becomes the string between the quotes;
* anything else becomes a `Reference`. -/
def convert (token : String) : Value :=
  if token = "None" then .vnone
  else if token = "True" ∨ token = "False" then .vbool (token != "")
  else
    let s := token.toList
    let num : Option Value :=
      if matchOctal s then (pyIntBase8 (s.drop 1)).map .vint
      else if matchHex s then (pyIntBase16 (s.drop 2)).map .vint
      else if matchDec s then some (.vint (pyIntDec s))
      else (pyParseFloat s).map .vfloat
    match num with
    | some v => v
    | none =>
      match s with
      | [] => .vref token
      | [_] => .vref token
      | c :: rest =>
        if c = (c :: rest).getLastD ' ' && isQuoteChar c then
          .vstr (String.mk (c :: rest).dropLast.tail)
        else .vref token

/-! ## Interpreter state (class Pretzyl in src/pretzyl.py) -/

/-- A stack of values; the head of the list is the top of the stack (the end
of the Python list). -/
abbrev Stack := List Value

/-- The environment: a mapping from names to values or operator objects.
The source installs DefaultOperators into the same dictionary as the data
(the operatorpath of the constructor is None by default, in which case
getopenv returns the whole environment). -/
abbrev Env := List (String × Value)

/-- The per-evaluation mutable state of the interpreter: the heap of stacks
(head of the list is the active stack, the stacks[-1] of the source) and the
lastop slot.  The environment is read-only during evaluation and is passed
separately. -/
structure PState where
  -- the source field is named stacks; that word is a reserved token here
  stks : List Stack
  lastop : Option OpCode

namespace Pretzyl

/-- STACKLIMIT of the source: maximum entries per stack. -/
def STACKLIMIT : Nat := 256

/-- STACKDEPTH of the source: maximum number of nested stacks. -/
def STACKDEPTH : Nat := 10

/-- INFLIMIT of the source: maximum modifier loop iterations. -/
def INFLIMIT : Nat := 256

/-- The active stack, stacks[-1] of the source (the heap is never empty in
any reachable state). -/
def active (st : PState) : Stack := st.stks.headD []

/-- Replaces the active stack. -/
def setActive (st : PState) (s : Stack) : PState :=
  { st with stks := s :: st.stks.tail }

/-- Method depth: length of the active stack. -/
def depth (st : PState) : Nat := (active st).length

/-- Looks up a name in the environment dictionary. -/
def envGet (env : Env) (name : String) : Option Value :=
  (env.find? (fun p => p.1 == name)).map (fun p => p.2)

/-- Method lookup: resolves the value of a token.  A Reference is looked up
in the environment (InvalidReference if the name is absent); any other
token is its own value. -/
def lookup (env : Env) (v : Value) : Except PErr Value :=
  match v with
  | .vref name =>
    match envGet env name with
    | some x => .ok x
    | none => .error .invalidReference
  | x => .ok x

/-- Resolves a list of popped items in order when the lookup flag is set
(the list comprehension in pop and peek); the first failing resolution
raises. -/
def lookupAll (env : Env) (lkp : Bool) (items : List Value) : Except PErr (List Value) :=
  if lkp then items.mapM (lookup env) else .ok items

/-- The return shaping shared by pop and peek (line 562 and 589 of the
source): a bare value for exactly one item, the list itself for more than
one, and Python None for zero items. -/
def shapeOf (items : List Value) : Value :=
  match items with
  | [] => .vnone
  | [x] => x
  | xs => .vlist xs

/-- Method push: appends a token to the active stack, StackOverflow if the
new depth would exceed STACKLIMIT. -/
def push (v : Value) (st : PState) : PState × Option PErr :=
  if STACKLIMIT < depth st + 1 then (st, some .stackOverflow)
  else (setActive st (v :: active st), none)

/-- Method pushstack: adds a new empty active stack to the heap,
RecursionOverflow if the heap would exceed STACKDEPTH stacks. -/
def pushstack (st : PState) : PState × Option PErr :=
  if STACKDEPTH < st.stks.length + 1 then (st, some .recursionOverflow)
  else ({ st with stks := [] :: st.stks }, none)

/-- Method popstack: pops the active stack off the heap (NestingException
if it is the only stack) and folds it into the new active stack: a single
entry is pushed as is, several entries are pushed as one compound list (in
bottom-to-top order, as the Python list is), an empty stack adds nothing. -/
def popstack (st : PState) : PState × Option PErr :=
  if st.stks.length = 1 then (st, some .nestingException)
  else
    match st.stks with
    | [] => (st, some .pyIndexError)
    | laststack :: rest =>
      let st1 : PState := { st with stks := rest }
      match laststack with
      | [] => (st1, none)
      | [v] => push v st1
      | vs => push (.vlist vs.reverse) st1

/-- Method pop: removes the top count entries of the active stack and
returns them (in bottom-to-top order) through the shaping of `shapeOf`,
resolving them first when the lookup flag is set.  A count of `none`
(Python None) drains the whole stack with no underflow check; a count of 0
returns Python None and does not touch the stack; otherwise fewer than
count entries raise StackUnderflow.  A resolution failure is raised after
the stack has already been truncated, as in the source. -/
def pop (env : Env) (count : Option Nat) (lkp : Bool) (st : PState) :
    PState × Except PErr Value :=
  match count with
  | none =>
    let items := (active st).reverse
    let st1 := setActive st []
    match lookupAll env lkp items with
    | .ok is => (st1, .ok (shapeOf is))
    | .error e => (st1, .error e)
  | some c =>
    if depth st < c then (st, .error .stackUnderflow)
    else if 0 < c then
      let items := ((active st).take c).reverse
      let st1 := setActive st ((active st).drop c)
      match lookupAll env lkp items with
      | .ok is => (st1, .ok (shapeOf is))
      | .error e => (st1, .error e)
    else (st, .ok .vnone)

/-- Method peek: like pop but non-destructive.  The slice stacks[-1][-count:]
of the source yields the top count entries for a positive count, but the
WHOLE stack for count 0 (a -0 slice bound in Python is 0, so the slice is
the full list). -/
def peek (env : Env) (count : Nat) (lkp : Bool) (st : PState) :
    PState × Except PErr Value :=
  if depth st < count then (st, .error .stackUnderflow)
  else
    let items :=
      if count = 0 then (active st).reverse
      else ((active st).take count).reverse
    match lookupAll env lkp items with
    | .ok is => (st, .ok (shapeOf is))
    | .error e => (st, .error e)

end Pretzyl

namespace Pretzyl

/-- Python truthiness of a value (used by the conditional expressions in the
short-circuit operators).  None, False, zero numbers, empty strings and
empty lists are falsy; any other object (including a Reference instance and
an operator function) is truthy. -/
def pyTruthy : Value → Bool
  | .vnone => false
  | .vbool b => b
  | .vint n => n != 0
  | .vfloat (.finite q) => q != 0
  | .vfloat (.inf _) => true
  | .vfloat .nan => true
  | .vstr s => s != ""
  | .vref _ => true
  | .vlist l => !l.isEmpty
  | .vop _ => true

/-- The CPython 2 comparison `v > k` of a value against an integer, with
the one genuinely unspecified case exposed as the parameter `instGtInt`.
Python 2 compares mixed types without error: None is smaller than
everything; bools are the integers 0 and 1; numbers compare numerically
(the finite float case compares the exact decimal value of the literal;
IEEE rounding is ignored, and nan comparisons are false); strings, lists
and functions have no numeric type slots, so the documented rule applies
to them (all numbers sort below every non-number) and they compare greater
than any integer.  A Reference, however, is an instance of an OLD-STYLE
class: its type fills the numeric slots, it passes PyNumber_Check, and its
comparison against an integer therefore falls through to an arbitrary
tie-break on the addresses of the two type structs -- a build-dependent,
unspecified outcome.  `instGtInt` is the direction of that tie-break for
instance-versus-int (the same direction for every such comparison within
one interpreter process); every theorem below that touches a Reference
count is stated for both directions. -/
def pyGtIntU (instGtInt : Bool) (v : Value) (k : Int) : Bool :=
  match v with
  | .vnone => false
  | .vbool b => decide (k < (if b then 1 else 0))
  | .vint n => decide (k < n)
  | .vfloat (.finite q) => decide ((k : ℚ) < q)
  | .vfloat (.inf neg) => !neg
  | .vfloat .nan => false
  | .vstr _ => true
  | .vref _ => instGtInt
  | .vlist _ => true
  | .vop _ => true

/-- Python `a + b` for the value combinations that can meet in this
development: integer (and bool-as-integer) addition, exact finite float
addition, string and list concatenation.  Other combinations raise
TypeError in Python 2; arithmetic on the IEEE special values inf and nan is
not modelled and is mapped to the same error marker (no theorem below adds
non-finite floats). -/
def pyAdd : Value → Value → Except PErr Value
  | .vint a, .vint b => .ok (.vint (a + b))
  | .vint a, .vbool b => .ok (.vint (a + (if b then 1 else 0)))
  | .vbool a, .vint b => .ok (.vint ((if a then 1 else 0) + b))
  | .vbool a, .vbool b => .ok (.vint ((if a then 1 else 0) + (if b then 1 else 0)))
  | .vint a, .vfloat (.finite b) => .ok (.vfloat (.finite ((a : ℚ) + b)))
  | .vfloat (.finite a), .vint b => .ok (.vfloat (.finite (a + (b : ℚ))))
  | .vfloat (.finite a), .vfloat (.finite b) => .ok (.vfloat (.finite (a + b)))
  | .vstr a, .vstr b => .ok (.vstr (a ++ b))
  | .vlist a, .vlist b => .ok (.vlist (a ++ b))
  | _, _ => .error .pyTypeError

/-- The `add` operator under its makeOperator wrapper: pop 2 arguments with
lookup, apply the function, push the result. -/
def addOp (env : Env) (st : PState) : PState × Option PErr :=
  match pop env (some 2) true st with
  | (st1, .error e) => (st1, some e)
  | (st1, .ok (.vlist [a, b])) =>
    match pyAdd a b with
    | .ok v => push v st1
    | .error e => (st1, some e)
  | (st1, .ok _) => (st1, some .pyTypeError)

/-- The short-circuit `and_` operator (a bare operator of arity 2 WITHOUT
lookup): pop the two raw arguments, resolve the first; if it is falsy push
False without ever resolving the second, otherwise resolve the second and
push its value. -/
def andOp (env : Env) (st : PState) : PState × Option PErr :=
  match pop env (some 2) false st with
  | (st1, .error e) => (st1, some e)
  | (st1, .ok (.vlist [a, b])) =>
    match lookup env a with
    | .error e => (st1, some e)
    | .ok ra =>
      if pyTruthy ra then
        match lookup env b with
        | .error e => (st1, some e)
        | .ok rb => push rb st1
      else push (.vbool false) st1
  | (st1, .ok _) => (st1, some .pyTypeError)

/-- The short-circuit `or_` operator (a bare operator of arity 2 WITHOUT
lookup): pop the two raw arguments, resolve the first; if it is truthy push
True without ever resolving the second, otherwise resolve the second and
push its value. -/
def orOp (env : Env) (st : PState) : PState × Option PErr :=
  match pop env (some 2) false st with
  | (st1, .error e) => (st1, some e)
  | (st1, .ok (.vlist [a, b])) =>
    match lookup env a with
    | .error e => (st1, some e)
    | .ok ra =>
      if pyTruthy ra then push (.vbool true) st1
      else
        match lookup env b with
        | .error e => (st1, some e)
        | .ok rb => push rb st1
  | (st1, .ok _) => (st1, some .pyTypeError)

/-- Runs the given state transformer n times, stopping at the first raised
error, which propagates with the state as mutated so far (the plain
`for i in range(n)` loop of `times`). -/
def loopN (f : PState → PState × Option PErr) : Nat → PState → PState × Option PErr
  | 0, st => (st, none)
  | n + 1, st =>
    match f st with
    | (st1, none) => loopN f n st1
    | (st1, some e) => (st1, some e)

/-- The loop of `squash` with its remaining iteration budget: each round
invokes the operator; a raised StackUnderflow is caught and ends the loop
as SUCCESS, any other raised error propagates, and an exhausted budget
(the for loop of the source running INFLIMIT full iterations) raises
IterationOverflow. -/
def squashIter (f : PState → PState × Option PErr) : Nat → PState → PState × Option PErr
  | 0, st => (st, some .iterationOverflow)
  | n + 1, st =>
    match f st with
    | (st1, none) => squashIter f n st1
    | (st1, some .stackUnderflow) => (st1, none)
    | (st1, some e) => (st1, some e)

/-- The `squash` modifier, generic in the invoked last operator: repeat it
up to INFLIMIT times, treating StackUnderflow as successful termination. -/
def squash (f : PState → PState × Option PErr) (st : PState) : PState × Option PErr :=
  squashIter f INFLIMIT st

/-- The `times` modifier, generic in the invoked last operator and in the
unspecified instance-versus-int tie-break direction.  It pops ONE RAW
argument (makeBareOperator defaults to lookup=False), asserts that it is
greater than 0 under the Python 2 mixed-type comparison, raises
IterationOverflow if it exceeds INFLIMIT under that comparison, and
otherwise repeats the last operator count-1 further times.  Only an
integer (or bool) count reaches the loop: a string or list compares
greater than INFLIMIT, None fails the assert, a float count would make
`range(a - 1)` raise TypeError, and a raw Reference count follows the
tie-break: it fails the assert when instances compare below integers and
raises IterationOverflow when they compare above -- a fatal error either
way, with the last operator never invoked. -/
def timesU (instGtInt : Bool) (f : PState → PState × Option PErr) (env : Env)
    (st : PState) : PState × Option PErr :=
  match pop env (some 1) false st with
  | (st1, .error e) => (st1, some e)
  | (st1, .ok a) =>
    if !pyGtIntU instGtInt a 0 then (st1, some .pyAssertionError)
    else if pyGtIntU instGtInt a (INFLIMIT : Int) then (st1, some .iterationOverflow)
    else
      match a with
      | .vint n => loopN f (n - 1).toNat st1
      | .vbool _ => loopN f 0 st1
      | _ => (st1, some .pyTypeError)

/-- The instance of `timesU` installed in the operator pipeline.  A total
function must pick one direction for the arbitrary tie-break, and the
choice here is immaterial: no theorem in this development depends on it,
since every statement about a Reference count is made about both
directions of `timesU`, and no other program proved about below feeds a
non-integer count to the modifier. -/
def times (f : PState → PState × Option PErr) (env : Env) (st : PState) :
    PState × Option PErr :=
  timesU true f env st

/-- Runs an operator object.  The fuel bounds the nesting of modifier
invocations through `lastop` (the Python call stack; a modifier whose
lastop is itself a modifier recurses, and CPython aborts such runaway
recursion with RuntimeError, modelled by `pyRecursionError`).  Invoking a
modifier while `lastop` is None is calling None, a TypeError. -/
def runOp (env : Env) (fuel : Nat) (op : OpCode) (st : PState) : PState × Option PErr :=
  match fuel with
  | 0 => (st, some .pyRecursionError)
  | f + 1 =>
    let call : PState → PState × Option PErr := fun s =>
      match s.lastop with
      | none => (s, some .pyTypeError)
      | some l => runOp env f l s
    match op with
    | .add => addOp env st
    | .andB => andOp env st
    | .orB => orOp env st
    | .squash => squash call st
    | .times => times call env st

/-- Method makeoperator: attempts to treat a token as an operator
invocation.  A non-Reference token, an unbound name, or a bound value that
is not an operator object yield False with the state untouched.  Otherwise
the operator is executed; on success `lastop` is set to the invoked
operator -- unconditionally, for modifiers as well -- and True is
returned; a raised error propagates (the Bool output is meaningless in
that case). -/
def makeoperator (env : Env) (fuel : Nat) (tok : Value) (st : PState) :
    PState × Option PErr × Bool :=
  match tok with
  | .vref name =>
    match envGet env name with
    | some (.vop o) =>
      match runOp env fuel o st with
      | (st1, none) => ({ st1 with lastop := some o }, none, true)
      | (st1, some e) => (st1, some e, true)
    | some _ => (st, none, false)
    | none => (st, none, false)
  | _ => (st, none, false)

/-- PUSHTOKEN of the source. -/
def PUSHTOKEN : String := "("

/-- POPTOKEN of the source. -/
def POPTOKEN : String := ")"

/-- One iteration of the token loop of method eval: a Reference named "("
pushes a new stack, one named ")" pops the active stack, any other
Reference is attempted as an operator and pushed as a plain value if that
fails; every non-Reference token is pushed. -/
def evalToken (env : Env) (fuel : Nat) (st : PState) (tok : Value) :
    PState × Option PErr :=
  match tok with
  | .vref name =>
    if name = PUSHTOKEN then pushstack st
    else if name = POPTOKEN then popstack st
    else
      match makeoperator env fuel tok st with
      | (st1, some e, _) => (st1, some e)
      | (st1, none, true) => (st1, none)
      | (st1, none, false) => push tok st1
  | _ => push tok st

/-- The token loop of method eval: process the tokens in program order,
aborting at the first raised error. -/
def runTokens (env : Env) (fuel : Nat) : List Value → PState → PState × Option PErr
  | [], st => (st, none)
  | t :: ts, st =>
    match evalToken env fuel st t with
    | (st1, none) => runTokens env fuel ts st1
    | (st1, some e) => (st1, some e)

/-- The initial state of every evaluation: one empty stack, no lastop. -/
def initState : PState := { stks := [[]], lastop := none }

/-- Method eval on an already tokenized program: run the token loop from a
fresh state; afterwards the heap must hold exactly one stack (otherwise
NestingException), and the result is pop(count, lookup) from it. -/
def eval (env : Env) (fuel : Nat) (tokens : List Value) (count : Option Nat)
    (lkp : Bool) : Except PErr Value :=
  match runTokens env fuel tokens initState with
  | (_, some e) => .error e
  | (st1, none) =>
    if st1.stks.length ≠ 1 then .error .nestingException
    else (pop env count lkp st1).2

/-- Tokenization of a pre-split program line without macro expansion (the
whitespace splitting itself lives in the external module tokenyze; none of
the token strings used below occur in the macro table MacroSymbols, so
macro expansion is the identity on them). -/
def tokenizeList (units : List String) : List Value :=
  units.map convert

end Pretzyl

/-- An environment holding the relevant default operators under their
DefaultOperators names together with a data binding used in examples. -/
def env0 : Env :=
  [("add", .vop .add), ("and", .vop .andB), ("or", .vop .orB),
   ("squash", .vop .squash), ("times", .vop .times), ("n", .vint 3)]

/-- Modelled from the claim wording for the repeat-by-count modifier (the
spec, section 4.4, declares it "arity 1, resolved"): identical in shape to
`Pretzyl.times` except that the count is popped WITH environment lookup and
must be a positive integer at most INFLIMIT.  This definition follows the
claim, not the source, and exists only to exhibit the divergence between
the two. -/
def timesResolvedSpec (f : PState → PState × Option PErr) (env : Env) (st : PState) :
    PState × Option PErr :=
  match Pretzyl.pop env (some 1) true st with
  | (st1, .error e) => (st1, some e)
  | (st1, .ok a) =>
    match a with
    | .vint n =>
      if n ≤ 0 then (st1, some .pyAssertionError)
      else if (Pretzyl.INFLIMIT : Int) < n then (st1, some .iterationOverflow)
      else Pretzyl.loopN f (n - 1).toNat st1
    | _ => (st1, some .pyAssertionError)

/-! ## Helper lemmas -/

/-- Iterating a transformer that never raises leaves the state fixed. -/
theorem loopN_pure_none (n : Nat) (st : PState) :
    Pretzyl.loopN (fun s => (s, none)) n st = (st, none) := by
  induction n generalizing st with
  | zero => rfl
  | succ n ih => simpa [Pretzyl.loopN] using ih st

/-- After k clean iterations of the invoked operator, the squash loop
continues with its budget reduced by k. -/
theorem squashIter_after_clean (f : PState → PState × Option PErr) :
    ∀ (k n : Nat) (st st1 : PState), Pretzyl.loopN f k st = (st1, none) → k ≤ n →
      Pretzyl.squashIter f n st = Pretzyl.squashIter f (n - k) st1 := by
  intro k
  induction k with
  | zero =>
    intro n st st1 h _
    simp only [Pretzyl.loopN] at h
    obtain ⟨rfl, -⟩ := Prod.mk.injEq .. ▸ h
    rfl
  | succ k ih =>
    intro n st st1 h hkn
    obtain ⟨m, rfl⟩ : ∃ m, n = m + 1 := ⟨n - 1, by omega⟩
    simp only [Pretzyl.loopN] at h
    rcases hf : f st with ⟨st2, oe⟩
    rw [hf] at h
    cases oe with
    | none =>
      simp only [Pretzyl.squashIter, hf]
      have := ih m st2 st1 h (by omega)
      simpa [Nat.succ_sub_succ] using this
    | some e => simp at h

/-- One step of the squash loop on an error other than StackUnderflow
propagates that error. -/
theorem squashIter_err_step (f : PState → PState × Option PErr) (n : Nat)
    (st st2 : PState) (e : PErr) (hf : f st = (st2, some e))
    (he : e ≠ PErr.stackUnderflow) :
    Pretzyl.squashIter f (n + 1) st = (st2, some e) := by
  cases e <;> simp_all [Pretzyl.squashIter]

/-- An error raised by the invoked operator at iteration j aborts the plain
repeat loop with that error and the state as mutated so far. -/
theorem loopN_err_at (f : PState → PState × Option PErr) :
    ∀ (j m : Nat) (st stA stB : PState) (e : PErr),
      Pretzyl.loopN f j st = (stA, none) → f stA = (stB, some e) → j < m →
      Pretzyl.loopN f m st = (stB, some e) := by
  intro j
  induction j with
  | zero =>
    intro m st stA stB e h hf hm
    simp only [Pretzyl.loopN] at h
    obtain ⟨rfl, -⟩ := Prod.mk.injEq .. ▸ h
    obtain ⟨m1, rfl⟩ : ∃ m1, m = m1 + 1 := ⟨m - 1, by omega⟩
    simp [Pretzyl.loopN, hf]
  | succ j ih =>
    intro m st stA stB e h hf hm
    simp only [Pretzyl.loopN] at h
    rcases hstep : f st with ⟨st2, oe⟩
    rw [hstep] at h
    cases oe with
    | none =>
      obtain ⟨m1, rfl⟩ : ∃ m1, m = m1 + 1 := ⟨m - 1, by omega⟩
      simp only [Pretzyl.loopN, hstep]
      exact ih m1 st2 stA stB e h hf (by omega)
    | some e2 => simp at h

/-! ## Claims -/

/-- C1: in any evaluation state, squash calls the previously dispatched
lastop repeatedly, up to INFLIMIT times; a StackUnderflow raised by the
operator terminates the loop as success, any other error raised by it
propagates, and INFLIMIT completed invocations raise IterationOverflow. -/
theorem C1_squash_loop :
    (∀ (f : PState → PState × Option PErr) (st st1 : PState),
       Pretzyl.loopN f Pretzyl.INFLIMIT st = (st1, none) →
       Pretzyl.squash f st = (st1, some PErr.iterationOverflow)) ∧
    (∀ (f : PState → PState × Option PErr) (k : Nat) (st st1 st2 : PState),
       Pretzyl.loopN f k st = (st1, none) → k < Pretzyl.INFLIMIT →
       f st1 = (st2, some PErr.stackUnderflow) →
       Pretzyl.squash f st = (st2, none)) ∧
    (∀ (f : PState → PState × Option PErr) (k : Nat) (st st1 st2 : PState) (e : PErr),
       Pretzyl.loopN f k st = (st1, none) → k < Pretzyl.INFLIMIT →
       f st1 = (st2, some e) → e ≠ PErr.stackUnderflow →
       Pretzyl.squash f st = (st2, some e)) := by
  refine ⟨?_, ?_, ?_⟩
  · intro f st st1 h
    have h1 := squashIter_after_clean f Pretzyl.INFLIMIT Pretzyl.INFLIMIT st st1 h le_rfl
    rw [Nat.sub_self] at h1
    rw [Pretzyl.squash, h1]
    rfl
  · intro f k st st1 st2 h hk hf
    have h1 := squashIter_after_clean f k Pretzyl.INFLIMIT st st1 h (le_of_lt hk)
    obtain ⟨m, hm⟩ : ∃ m, Pretzyl.INFLIMIT - k = m + 1 :=
      ⟨Pretzyl.INFLIMIT - k - 1, by omega⟩
    rw [Pretzyl.squash, h1, hm]
    simp [Pretzyl.squashIter, hf]
  · intro f k st st1 st2 e h hk hf he
    have h1 := squashIter_after_clean f k Pretzyl.INFLIMIT st st1 h (le_of_lt hk)
    obtain ⟨m, hm⟩ : ∃ m, Pretzyl.INFLIMIT - k = m + 1 :=
      ⟨Pretzyl.INFLIMIT - k - 1, by omega⟩
    rw [Pretzyl.squash, h1, hm]
    exact squashIter_err_step f m st1 st2 e hf he

/-- Witness for C1 at concrete operators: one that raises StackUnderflow at
once (success), one that raises InvalidReference at once (propagates), and
one that never raises (IterationOverflow after INFLIMIT rounds). -/
theorem C1_squash_loop_witness :
    Pretzyl.squash (fun s => (s, some PErr.stackUnderflow)) Pretzyl.initState
      = (Pretzyl.initState, none) ∧
    Pretzyl.squash (fun s => (s, some PErr.invalidReference)) Pretzyl.initState
      = (Pretzyl.initState, some PErr.invalidReference) ∧
    Pretzyl.squash (fun s => (s, none)) Pretzyl.initState
      = (Pretzyl.initState, some PErr.iterationOverflow) :=
  ⟨C1_squash_loop.2.1 _ 0 _ _ _ rfl (by decide) rfl,
   C1_squash_loop.2.2 _ 0 _ _ _ _ rfl (by decide) rfl (by decide),
   C1_squash_loop.1 _ _ _ (loopN_pure_none Pretzyl.INFLIMIT Pretzyl.initState)⟩

/-- C2 counterexample: after "1 2 add squash", the dispatcher has set
lastop to the modifier squash itself (line 658 of the source runs
unconditionally), not to the last non-modifier capability add as the claim
states. -/
theorem C2_lastop_counterexample :
    Pretzyl.runTokens env0 100 [.vint 1, .vint 2, .vref "add", .vref "squash"]
      Pretzyl.initState
      = ({ stks := [[.vint 3]], lastop := some OpCode.squash }, none) ∧
    some OpCode.squash ≠ some OpCode.add := ⟨rfl, by decide⟩

/-- C2 amended: after EVERY successful dispatch of a capability, modifier
or not, lastop is set to that capability. -/
theorem C2_lastop_updated_always (env : Env) (fuel : Nat) (name : String)
    (o : OpCode) (st st1 : PState)
    (hget : Pretzyl.envGet env name = some (.vop o))
    (hrun : Pretzyl.runOp env fuel o st = (st1, none)) :
    Pretzyl.makeoperator env fuel (.vref name) st
      = ({ st1 with lastop := some o }, none, true) := by
  simp only [Pretzyl.makeoperator, hget, hrun]

/-- Witness for the amended C2: dispatching the modifier squash overwrites
a lastop that held add. -/
theorem C2_lastop_updated_always_witness :
    Pretzyl.makeoperator env0 10 (.vref "squash")
      { stks := [[.vint 3]], lastop := some OpCode.add }
      = ({ stks := [[.vint 3]], lastop := some OpCode.squash }, none, true) :=
  C2_lastop_updated_always env0 10 "squash" .squash _ _ rfl rfl

/-- C3: the conversion of the three keyword tokens, evaluated on the code.
"None" gives None and "True" gives True as the claim states, but "False"
gives True as well: the source computes bool(token), the truthiness of the
non-empty string "False" (its own test suite, test.py line 47, expects
False here). -/
theorem C3_convert_keywords :
    convert "None" = Value.vnone ∧ convert "True" = Value.vbool true ∧
    convert "False" = Value.vbool true := ⟨rfl, rfl, rfl⟩

/-- C4: the numeric conversions evaluated on the code.  Unsigned octal and
hex literals and signed decimals convert as the claim states, but the sign
of an octal literal is silently dropped (int(token[1:], 8) strips the minus
sign instead of the leading zero, so "-010" gives 8, not -8) and a signed
hex literal always falls through to a Reference (int(token[2:], 16) is
applied to a string still containing the letter x). -/
theorem C4_convert_signed_numerics :
    convert "010" = Value.vint 8 ∧ convert "0x1F" = Value.vint 31 ∧
    convert "-12" = Value.vint (-12) ∧ convert "-010" = Value.vint 8 ∧
    convert "-0x1F" = Value.vref "-0x1F" := ⟨rfl, rfl, rfl, rfl, rfl⟩

/-- Popping one raw entry from a non-empty active stack yields its top. -/
theorem pop_one_raw (env : Env) (v : Value) (rest : List Value)
    (others : List Stack) (lo : Option OpCode) :
    Pretzyl.pop env (some 1) false { stks := (v :: rest) :: others, lastop := lo }
      = ({ stks := rest :: others, lastop := lo }, .ok v) := by
  simp [Pretzyl.pop, Pretzyl.depth, Pretzyl.active, Pretzyl.setActive,
    Pretzyl.lookupAll, Pretzyl.shapeOf]

/-- Popping two raw entries from a stack of depth at least two yields the
pair in bottom-to-top order as a two-element list. -/
theorem pop_two_raw (env : Env) (b a : Value) (rest : List Value)
    (others : List Stack) (lo : Option OpCode) :
    Pretzyl.pop env (some 2) false { stks := (b :: a :: rest) :: others, lastop := lo }
      = ({ stks := rest :: others, lastop := lo }, .ok (.vlist [a, b])) := by
  simp [Pretzyl.pop, Pretzyl.depth, Pretzyl.active, Pretzyl.setActive,
    Pretzyl.lookupAll, Pretzyl.shapeOf, List.take]

/-- C5 counterexample: a successful eval of the three-literal program
1 2 3 with resultCount 1 returns 3, the top (most recently pushed) entry of
the surviving stack, not the bottom entry 1 that the claim names. -/
theorem C5_eval_top_counterexample :
    Pretzyl.eval env0 100 [.vint 1, .vint 2, .vint 3] (some 1) true = .ok (.vint 3) ∧
    Value.vint 3 ≠ Value.vint 1 := by
  refine ⟨rfl, fun h => ?_⟩
  injection h with h2
  exact absurd h2 (by decide)

/-- C5 amended: a successful eval whose surviving single stack holds at
least resultCount entries returns the resultCount entries taken from the
TOP of that stack (the most recently pushed ones), in bottom-to-top order,
resolved or raw per the lookup flag and shaped by `shapeOf`. -/
theorem C5_eval_returns_top (env : Env) (fuel : Nat) (tokens : List Value) (c : Nat)
    (lkp : Bool) (st1 : PState) (s : Stack)
    (hrun : Pretzyl.runTokens env fuel tokens Pretzyl.initState = (st1, none))
    (hst : st1.stks = [s]) (hc : 0 < c) (hlen : c ≤ s.length) :
    Pretzyl.eval env fuel tokens (some c) lkp =
      (match Pretzyl.lookupAll env lkp ((s.take c).reverse) with
       | .ok is => Except.ok (Pretzyl.shapeOf is)
       | .error e => Except.error e) := by
  have hlen1 : st1.stks.length = 1 := by rw [hst]; rfl
  simp only [Pretzyl.eval, hrun]
  rw [if_neg (by omega)]
  simp only [Pretzyl.pop, Pretzyl.depth, Pretzyl.active, hst, List.headD]
  rw [if_neg (by omega), if_pos hc]
  rcases hla : Pretzyl.lookupAll env lkp ((s.take c).reverse) with is | e <;> simp [hla]

/-- Witness for the amended C5: with stack 1 2 3 surviving and resultCount
2, eval returns the shaped top two entries 2 3. -/
theorem C5_eval_returns_top_witness :
    Pretzyl.eval env0 100 [.vint 1, .vint 2, .vint 3] (some 2) true =
      (match Pretzyl.lookupAll env0 true
          (([Value.vint 3, Value.vint 2, Value.vint 1].take 2).reverse) with
       | .ok is => Except.ok (Pretzyl.shapeOf is)
       | .error e => Except.error e) :=
  C5_eval_returns_top env0 100 [.vint 1, .vint 2, .vint 3] 2 true _
    [Value.vint 3, Value.vint 2, Value.vint 1] rfl rfl (by decide) (by decide)

/-- C6 counterexample: with the count given as a Reference that resolves to
the integer 3 (well within INFLIMIT), the code never resolves it (the
count is popped WITHOUT lookup) and fails fatally under EITHER direction
of the unspecified CPython 2 instance-versus-int tie-break: when the raw
Reference compares above integers the bound check raises IterationOverflow,
and when it compares below them the assert fails with AssertionError, in
both cases without invoking lastop; the claim (count popped resolved)
predicts a successful run repeating the operator twice more, as the
spec-side definition computes. -/
theorem C6_times_counterexample :
    Pretzyl.lookup env0 (.vref "n") = .ok (.vint 3) ∧
    ((3 : Int) ≤ (Pretzyl.INFLIMIT : Int)) ∧
    Pretzyl.timesU true (fun s => (s, none)) env0
        { stks := [[.vref "n"]], lastop := some OpCode.add }
      = ({ stks := [[]], lastop := some OpCode.add }, some PErr.iterationOverflow) ∧
    Pretzyl.timesU false (fun s => (s, none)) env0
        { stks := [[.vref "n"]], lastop := some OpCode.add }
      = ({ stks := [[]], lastop := some OpCode.add }, some PErr.pyAssertionError) ∧
    timesResolvedSpec (fun s => (s, none)) env0
        { stks := [[.vref "n"]], lastop := some OpCode.add }
      = ({ stks := [[]], lastop := some OpCode.add }, none) :=
  ⟨rfl, by decide, rfl, rfl, rfl⟩

/-- C6 amended: the repeat-by-count modifier pops one RAW (unresolved)
count, whatever the direction of the unspecified instance-versus-int
tie-break; an empty stack underflows; a non-positive integer count fails
the assert; an integer count beyond INFLIMIT raises IterationOverflow
without invoking the operator; an integer count N in range runs the
operator exactly N-1 further times; an error (in particular
StackUnderflow) raised by the operator during those repeats propagates as
a failure with the state as mutated so far; and a Reference count is
never resolved and fails fatally under both tie-break directions --
IterationOverflow when instances compare above integers, AssertionError
when they compare below -- without invoking the operator. -/
theorem C6_times_behavior :
    (∀ (tb : Bool) (f : PState → PState × Option PErr) (env : Env)
       (others : List Stack) (lo : Option OpCode),
       Pretzyl.timesU tb f env { stks := [] :: others, lastop := lo }
         = ({ stks := [] :: others, lastop := lo }, some PErr.stackUnderflow)) ∧
    (∀ (tb : Bool) (f : PState → PState × Option PErr) (env : Env) (n : Int)
       (rest : List Value) (others : List Stack) (lo : Option OpCode), n ≤ 0 →
       Pretzyl.timesU tb f env { stks := (Value.vint n :: rest) :: others, lastop := lo }
         = ({ stks := rest :: others, lastop := lo }, some PErr.pyAssertionError)) ∧
    (∀ (tb : Bool) (f : PState → PState × Option PErr) (env : Env) (n : Int)
       (rest : List Value) (others : List Stack) (lo : Option OpCode),
       (Pretzyl.INFLIMIT : Int) < n →
       Pretzyl.timesU tb f env { stks := (Value.vint n :: rest) :: others, lastop := lo }
         = ({ stks := rest :: others, lastop := lo }, some PErr.iterationOverflow)) ∧
    (∀ (tb : Bool) (f : PState → PState × Option PErr) (env : Env) (n : Int)
       (rest : List Value) (others : List Stack) (lo : Option OpCode),
       0 < n → n ≤ (Pretzyl.INFLIMIT : Int) →
       Pretzyl.timesU tb f env { stks := (Value.vint n :: rest) :: others, lastop := lo }
         = Pretzyl.loopN f (n - 1).toNat { stks := rest :: others, lastop := lo }) ∧
    (∀ (f : PState → PState × Option PErr) (j m : Nat) (st stA stB : PState),
       Pretzyl.loopN f j st = (stA, none) →
       f stA = (stB, some PErr.stackUnderflow) → j < m →
       Pretzyl.loopN f m st = (stB, some PErr.stackUnderflow)) ∧
    (∀ (f : PState → PState × Option PErr) (env : Env) (name : String)
       (rest : List Value) (others : List Stack) (lo : Option OpCode),
       Pretzyl.timesU true f env
           { stks := (Value.vref name :: rest) :: others, lastop := lo }
         = ({ stks := rest :: others, lastop := lo }, some PErr.iterationOverflow) ∧
       Pretzyl.timesU false f env
           { stks := (Value.vref name :: rest) :: others, lastop := lo }
         = ({ stks := rest :: others, lastop := lo }, some PErr.pyAssertionError)) := by
  refine ⟨?_, ?_, ?_, ?_, ?_, ?_⟩
  · intro tb f env others lo
    simp [Pretzyl.timesU, Pretzyl.pop, Pretzyl.depth, Pretzyl.active]
  · intro tb f env n rest others lo hn
    have h0 : ¬ ((0 : Int) < n) := by omega
    simp [Pretzyl.timesU, pop_one_raw, Pretzyl.pyGtIntU, h0]
  · intro tb f env n rest others lo hn
    have h0 : (0 : Int) < n := by
      have : (0 : Int) < (Pretzyl.INFLIMIT : Int) := by decide
      omega
    simp [Pretzyl.timesU, pop_one_raw, Pretzyl.pyGtIntU, h0, hn]
  · intro tb f env n rest others lo h0 hn
    have h2 : ¬ ((Pretzyl.INFLIMIT : Int) < n) := by omega
    simp [Pretzyl.timesU, pop_one_raw, Pretzyl.pyGtIntU, h0, h2]
  · intro f j m st stA stB h hf hm
    exact loopN_err_at f j m st stA stB PErr.stackUnderflow h hf hm
  · intro f env name rest others lo
    constructor
    · simp [Pretzyl.timesU, pop_one_raw, Pretzyl.pyGtIntU]
    · simp [Pretzyl.timesU, pop_one_raw, Pretzyl.pyGtIntU]

/-- Witness for the amended C6: a count of 3 on top of three ones runs add
twice more (under either tie-break direction; true shown), a count of 0
fails the assert, a count of 300 raises IterationOverflow, and a raw
Reference count fails fatally in the way each tie-break direction
dictates. -/
theorem C6_times_behavior_witness :
    Pretzyl.timesU true (Pretzyl.addOp env0) env0
        { stks := [[.vint 3, .vint 1, .vint 1, .vint 1]], lastop := some OpCode.add }
      = Pretzyl.loopN (Pretzyl.addOp env0) (((3 : Int) - 1).toNat)
          { stks := [[.vint 1, .vint 1, .vint 1]], lastop := some OpCode.add } ∧
    Pretzyl.timesU false (Pretzyl.addOp env0) env0
        { stks := [[.vint 0]], lastop := some OpCode.add }
      = ({ stks := [[]], lastop := some OpCode.add }, some PErr.pyAssertionError) ∧
    Pretzyl.timesU true (Pretzyl.addOp env0) env0
        { stks := [[.vint 300]], lastop := some OpCode.add }
      = ({ stks := [[]], lastop := some OpCode.add }, some PErr.iterationOverflow) ∧
    Pretzyl.timesU false (Pretzyl.addOp env0) env0
        { stks := [[.vref "n"]], lastop := some OpCode.add }
      = ({ stks := [[]], lastop := some OpCode.add }, some PErr.pyAssertionError) :=
  ⟨C6_times_behavior.2.2.2.1 true _ env0 3 _ _ _ (by decide) (by decide),
   C6_times_behavior.2.1 false _ env0 0 _ _ _ (by decide),
   C6_times_behavior.2.2.1 true _ env0 300 _ _ _ (by decide),
   (C6_times_behavior.2.2.2.2.2 _ env0 "n" [] [] (some OpCode.add)).2⟩

/-- C7: on a heap with at least two stacks, popstack removes the active
stack and folds it into the new active stack (a single entry is pushed as
is, several entries are pushed as one compound value, an empty stack adds
nothing; the non-empty cases invoke push and assume it stays within
STACKLIMIT), and popstack on a single-stack heap raises NestingException
with the heap unchanged. -/
theorem C7_popstack_fold :
    (∀ st : PState, st.stks.length = 1 →
       Pretzyl.popstack st = (st, some PErr.nestingException)) ∧
    (∀ (s : Stack) (others : List Stack) (lo : Option OpCode),
       Pretzyl.popstack { stks := [] :: s :: others, lastop := lo }
         = ({ stks := s :: others, lastop := lo }, none)) ∧
    (∀ (v : Value) (s : Stack) (others : List Stack) (lo : Option OpCode),
       s.length < Pretzyl.STACKLIMIT →
       Pretzyl.popstack { stks := [v] :: s :: others, lastop := lo }
         = ({ stks := (v :: s) :: others, lastop := lo }, none)) ∧
    (∀ (x y : Value) (t : List Value) (s : Stack) (others : List Stack)
       (lo : Option OpCode), s.length < Pretzyl.STACKLIMIT →
       Pretzyl.popstack { stks := (x :: y :: t) :: s :: others, lastop := lo }
         = ({ stks := (Value.vlist (x :: y :: t).reverse :: s) :: others, lastop := lo },
            none)) := by
  refine ⟨?_, ?_, ?_, ?_⟩
  · intro st h
    simp [Pretzyl.popstack, h]
  · intro s others lo
    simp [Pretzyl.popstack]
  · intro v s others lo h
    have h2 : ¬ (Pretzyl.STACKLIMIT < s.length + 1) := by omega
    simp [Pretzyl.popstack, Pretzyl.push, Pretzyl.depth, Pretzyl.active,
      Pretzyl.setActive, h2]
  · intro x y t s others lo h
    have h2 : ¬ (Pretzyl.STACKLIMIT < s.length + 1) := by omega
    simp [Pretzyl.popstack, Pretzyl.push, Pretzyl.depth, Pretzyl.active,
      Pretzyl.setActive, h2]

/-- Witness for C7 on concrete heaps: the single-stack refusal leaves the
heap intact, and the empty, singleton and two-entry folds behave as
stated. -/
theorem C7_popstack_fold_witness :
    Pretzyl.popstack { stks := [[.vint 7]], lastop := none }
      = ({ stks := [[.vint 7]], lastop := none }, some PErr.nestingException) ∧
    Pretzyl.popstack { stks := [[], [.vint 0]], lastop := none }
      = ({ stks := [[.vint 0]], lastop := none }, none) ∧
    Pretzyl.popstack { stks := [[.vint 5], [.vint 0]], lastop := none }
      = ({ stks := [[.vint 5, .vint 0]], lastop := none }, none) ∧
    Pretzyl.popstack { stks := [[.vint 2, .vint 1], [.vint 0]], lastop := none }
      = ({ stks := [[Value.vlist [.vint 1, .vint 2], .vint 0]], lastop := none }, none) :=
  ⟨C7_popstack_fold.1 _ rfl,
   C7_popstack_fold.2.1 [.vint 0] [] none,
   C7_popstack_fold.2.2.1 (.vint 5) [.vint 0] [] none (by decide),
   C7_popstack_fold.2.2.2 (.vint 2) (.vint 1) [] [.vint 0] [] none (by decide)⟩

/-- C8: a close-bracket token arriving while the heap holds only one stack
raises NestingException on the spot; a token stream that ends with more
than one stack on the heap makes eval fail with NestingException; the two
unbalanced example programs of the spec both fail that way. -/
theorem C8_unbalanced_brackets :
    (∀ (env : Env) (fuel : Nat) (st : PState), st.stks.length = 1 →
       Pretzyl.evalToken env fuel st (.vref Pretzyl.POPTOKEN)
         = (st, some PErr.nestingException)) ∧
    (∀ (env : Env) (fuel : Nat) (tokens : List Value) (st1 : PState)
       (count : Option Nat) (lkp : Bool),
       Pretzyl.runTokens env fuel tokens Pretzyl.initState = (st1, none) →
       st1.stks.length ≠ 1 →
       Pretzyl.eval env fuel tokens count lkp = .error PErr.nestingException) ∧
    Pretzyl.eval env0 100 (Pretzyl.tokenizeList ["(", "(", ")"]) none true
      = .error PErr.nestingException ∧
    Pretzyl.eval env0 100 (Pretzyl.tokenizeList ["(", "(", ")", ")", ")"]) none true
      = .error PErr.nestingException := by
  refine ⟨?_, ?_, rfl, rfl⟩
  · intro env fuel st h
    simp [Pretzyl.evalToken, Pretzyl.POPTOKEN, Pretzyl.PUSHTOKEN, Pretzyl.popstack, h]
  · intro env fuel tokens st1 count lkp hrun hne
    simp only [Pretzyl.eval, hrun]
    rw [if_pos hne]

/-- Witness for C8: the close token refused on a fresh single-stack heap,
and the too-few-closes program ending with two stacks. -/
theorem C8_unbalanced_brackets_witness :
    Pretzyl.evalToken env0 5 Pretzyl.initState (.vref Pretzyl.POPTOKEN)
      = (Pretzyl.initState, some PErr.nestingException) ∧
    Pretzyl.eval env0 100 (Pretzyl.tokenizeList ["(", "(", ")"]) none true
      = .error PErr.nestingException :=
  ⟨C8_unbalanced_brackets.1 env0 5 Pretzyl.initState rfl,
   C8_unbalanced_brackets.2.1 env0 100 _ _ none true rfl (by decide)⟩

/-- C9: the short-circuit AND and OR pop their two operands raw (no lookup:
the state below holds arbitrary unresolved values a and b), resolve the
first operand, and resolve the second operand only when the first does not
already decide the result; with a falsy first operand AND pushes False and
with a truthy first operand OR pushes True, in both cases for EVERY second
operand b, resolvable or not. -/
theorem C9_short_circuit :
    ∀ (env : Env) (a b : Value) (rest : List Value) (others : List Stack)
      (lo : Option OpCode), rest.length < Pretzyl.STACKLIMIT →
      (∀ ra, Pretzyl.lookup env a = .ok ra → Pretzyl.pyTruthy ra = false →
        Pretzyl.andOp env { stks := (b :: a :: rest) :: others, lastop := lo }
          = ({ stks := (Value.vbool false :: rest) :: others, lastop := lo }, none)) ∧
      (∀ ra rb, Pretzyl.lookup env a = .ok ra → Pretzyl.pyTruthy ra = true →
        Pretzyl.lookup env b = .ok rb →
        Pretzyl.andOp env { stks := (b :: a :: rest) :: others, lastop := lo }
          = ({ stks := (rb :: rest) :: others, lastop := lo }, none)) ∧
      (∀ ra, Pretzyl.lookup env a = .ok ra → Pretzyl.pyTruthy ra = true →
        Pretzyl.orOp env { stks := (b :: a :: rest) :: others, lastop := lo }
          = ({ stks := (Value.vbool true :: rest) :: others, lastop := lo }, none)) ∧
      (∀ ra rb, Pretzyl.lookup env a = .ok ra → Pretzyl.pyTruthy ra = false →
        Pretzyl.lookup env b = .ok rb →
        Pretzyl.orOp env { stks := (b :: a :: rest) :: others, lastop := lo }
          = ({ stks := (rb :: rest) :: others, lastop := lo }, none)) := by
  intro env a b rest others lo hlim
  have h2 : ¬ (Pretzyl.STACKLIMIT < rest.length + 1) := by omega
  refine ⟨?_, ?_, ?_, ?_⟩
  · intro ra hla hra
    simp [Pretzyl.andOp, pop_two_raw, hla, hra, Pretzyl.push, Pretzyl.depth,
      Pretzyl.active, Pretzyl.setActive, h2]
  · intro ra rb hla hra hlb
    simp [Pretzyl.andOp, pop_two_raw, hla, hra, hlb, Pretzyl.push, Pretzyl.depth,
      Pretzyl.active, Pretzyl.setActive, h2]
  · intro ra hla hra
    simp [Pretzyl.orOp, pop_two_raw, hla, hra, Pretzyl.push, Pretzyl.depth,
      Pretzyl.active, Pretzyl.setActive, h2]
  · intro ra rb hla hra hlb
    simp [Pretzyl.orOp, pop_two_raw, hla, hra, hlb, Pretzyl.push, Pretzyl.depth,
      Pretzyl.active, Pretzyl.setActive, h2]

/-- Witness for C9: with an UNRESOLVABLE second operand (a Reference bound
to nothing) AND on a falsy first operand still succeeds pushing False and
OR on a truthy first operand still succeeds pushing True; with the first
operand not deciding, the second operand (a Reference to n = 3) is
resolved and pushed. -/
theorem C9_short_circuit_witness :
    Pretzyl.andOp env0 { stks := [[.vref "missing", .vint 0]], lastop := none }
      = ({ stks := [[.vbool false]], lastop := none }, none) ∧
    Pretzyl.orOp env0 { stks := [[.vref "missing", .vint 1]], lastop := none }
      = ({ stks := [[.vbool true]], lastop := none }, none) ∧
    Pretzyl.andOp env0 { stks := [[.vref "n", .vint 1]], lastop := none }
      = ({ stks := [[.vint 3]], lastop := none }, none) ∧
    Pretzyl.orOp env0 { stks := [[.vref "n", .vint 0]], lastop := none }
      = ({ stks := [[.vint 3]], lastop := none }, none) :=
  ⟨(C9_short_circuit env0 (.vint 0) (.vref "missing") [] [] none (by decide)).1
      (.vint 0) rfl rfl,
   (C9_short_circuit env0 (.vint 1) (.vref "missing") [] [] none (by decide)).2.2.1
      (.vint 1) rfl rfl,
   (C9_short_circuit env0 (.vint 1) (.vref "n") [] [] none (by decide)).2.1
      (.vint 1) (.vint 3) rfl rfl rfl,
   (C9_short_circuit env0 (.vint 0) (.vref "n") [] [] none (by decide)).2.2.2
      (.vint 0) (.vint 3) rfl rfl rfl⟩

/-- C10: the shared shaping of pop and peek returns Python None for zero
resulting entries, the bare value for exactly one, and the list for more;
pop with count None drains the whole active stack with no underflow check
(no hypothesis on the stack below); pop with count 0 returns None and
leaves the state untouched; and for a positive count within the depth both
pop and peek return the shaped, optionally resolved top count entries in
bottom-to-top order, pop removing them and peek leaving the state
untouched. -/
theorem C10_pop_peek_shape :
    (Pretzyl.shapeOf [] = Value.vnone) ∧
    (∀ x : Value, Pretzyl.shapeOf [x] = x) ∧
    (∀ (x y : Value) (t : List Value),
       Pretzyl.shapeOf (x :: y :: t) = Value.vlist (x :: y :: t)) ∧
    (∀ (env : Env) (lkp : Bool) (st : PState),
       Pretzyl.pop env (some 0) lkp st = (st, .ok Value.vnone)) ∧
    (∀ (env : Env) (lkp : Bool) (s : Stack) (others : List Stack) (lo : Option OpCode),
       Pretzyl.pop env none lkp { stks := s :: others, lastop := lo }
         = (match Pretzyl.lookupAll env lkp s.reverse with
            | .ok is => ({ stks := [] :: others, lastop := lo }, .ok (Pretzyl.shapeOf is))
            | .error e => ({ stks := [] :: others, lastop := lo }, .error e))) ∧
    (∀ (env : Env) (lkp : Bool) (c : Nat) (s : Stack) (others : List Stack)
       (lo : Option OpCode), 0 < c → c ≤ s.length →
       Pretzyl.pop env (some c) lkp { stks := s :: others, lastop := lo }
         = (match Pretzyl.lookupAll env lkp ((s.take c).reverse) with
            | .ok is =>
              ({ stks := s.drop c :: others, lastop := lo }, .ok (Pretzyl.shapeOf is))
            | .error e =>
              ({ stks := s.drop c :: others, lastop := lo }, .error e))) ∧
    (∀ (env : Env) (lkp : Bool) (c : Nat) (s : Stack) (others : List Stack)
       (lo : Option OpCode), 0 < c → c ≤ s.length →
       Pretzyl.peek env c lkp { stks := s :: others, lastop := lo }
         = (match Pretzyl.lookupAll env lkp ((s.take c).reverse) with
            | .ok is =>
              ({ stks := s :: others, lastop := lo }, .ok (Pretzyl.shapeOf is))
            | .error e =>
              ({ stks := s :: others, lastop := lo }, .error e))) := by
  refine ⟨rfl, fun x => rfl, fun x y t => rfl, ?_, ?_, ?_, ?_⟩
  · intro env lkp st
    simp [Pretzyl.pop]
  · intro env lkp s others lo
    simp only [Pretzyl.pop, Pretzyl.active, Pretzyl.setActive, List.headD, List.tail]
  · intro env lkp c s others lo hc hlen
    simp only [Pretzyl.pop, Pretzyl.depth, Pretzyl.active, Pretzyl.setActive,
      List.headD, List.tail]
    rw [if_neg (by omega), if_pos hc]
  · intro env lkp c s others lo hc hlen
    simp only [Pretzyl.peek, Pretzyl.depth, Pretzyl.active, List.headD]
    rw [if_neg (by omega), if_neg (by omega)]

/-- Witness for C10: the positive-count parts evaluated at a two-entry
stack with count 1 (bare top value for pop and peek). -/
theorem C10_pop_peek_shape_witness :
    Pretzyl.pop env0 (some 1) true { stks := [[.vint 2, .vint 1]], lastop := none }
      = (match Pretzyl.lookupAll env0 true (([Value.vint 2, Value.vint 1].take 1).reverse) with
         | .ok is => ({ stks := [[.vint 1]], lastop := none }, .ok (Pretzyl.shapeOf is))
         | .error e => ({ stks := [[.vint 1]], lastop := none }, .error e)) ∧
    Pretzyl.peek env0 1 true { stks := [[.vint 2, .vint 1]], lastop := none }
      = (match Pretzyl.lookupAll env0 true (([Value.vint 2, Value.vint 1].take 1).reverse) with
         | .ok is => ({ stks := [[.vint 2, .vint 1]], lastop := none }, .ok (Pretzyl.shapeOf is))
         | .error e => ({ stks := [[.vint 2, .vint 1]], lastop := none }, .error e)) :=
  ⟨C10_pop_peek_shape.2.2.2.2.2.1 env0 true 1 [.vint 2, .vint 1] [] none
      (by decide) (by decide),
   C10_pop_peek_shape.2.2.2.2.2.2 env0 true 1 [.vint 2, .vint 1] [] none
      (by decide) (by decide)⟩
